import Mathlib

/-!
Verification of the pwsh-repl repository: a shallow embedding of
`src/src/powershell-persistent/Modules/TokenCounter/test_tiktoken.py`
(the token-counting CLI script) and `src/custom/hello_world.py`
(the greeting tool), with theorems settling the behavioural claims.

The tiktoken library and the filesystem (`os.path.isfile`, `open`) are
external collaborators of the script; they are modelled as parameters
(`Tiktoken`, and the `isfile` / `read_file` fields of `Env`).  Fallible
external calls return `Except String α`, the error string standing for
the message of the Python exception.  An invocation of the script is a
pure function from such an environment to a `RunResult` recording the
lines printed to standard output, the lines printed to the error
stream, and the process exit status.
-/

namespace PwshRepl

/-- Model of a tiktoken `Encoding` object: `encode` turns text into a
sequence of integer token identifiers, and may raise (error case). -/
structure Encoding where
  encode : String → Except String (List Nat)

/-- Model of the tiktoken module: `encoding_for_model` looks up the
model-specific encoder and may raise for an unknown model. -/
structure Tiktoken where
  encoding_for_model : String → Except String Encoding

/-- Embedding of `count_tokens(text, model)` from `test_tiktoken.py`.
The Python body runs `enc = tiktoken.encoding_for_model(model)` and
`tokens = enc.encode(text)` inside one `try`, returns `len(tokens)`,
and on any exception prints `Error: {e}` to stderr and returns `-1`.
The result pairs the returned integer with the lines written to the
error stream; being a total Lean function, no exception can propagate. -/
def count_tokens (tk : Tiktoken) (text : String) (model : String) :
    Int × List String :=
  match tk.encoding_for_model model with
  | Except.ok enc =>
    match enc.encode text with
    | Except.ok tokens => ((tokens.length : Int), [])
    | Except.error e => (-1, ["Error: " ++ e])
  | Except.error e => (-1, ["Error: " ++ e])

/-- Environment of one invocation of the script: the tiktoken module,
the two filesystem operations the script uses (`os.path.isfile` and
reading a file as UTF-8 via `open`), and the CLI arguments
`sys.argv[1:]` (the script name `sys.argv[0]` is never inspected). -/
structure Env where
  tiktoken : Tiktoken
  isfile : String → Bool
  read_file : String → Except String String
  args : List String

/-- Result of one run of the script: lines printed to standard output,
lines printed to the error stream, and the exit status. -/
structure RunResult where
  stdout : List String
  stderr : List String
  exitCode : Nat
deriving DecidableEq, Repr

/-- Embedding of the text-resolution step of `__main__`:
`sys.argv[1]` if present (read as a UTF-8 file when `os.path.isfile`
holds, else taken literally), defaulting to `"Hello, World!"`.
An `error e` outcome is the `except` branch of the file read, where the
script prints a diagnostic and exits 1. -/
def resolve_text (env : Env) : Except String String :=
  match env.args with
  | [] => Except.ok "Hello, World!"
  | text_input :: _ =>
    if env.isfile text_input then
      env.read_file text_input
    else
      Except.ok text_input

/-- Embedding of `model = sys.argv[2] if len(sys.argv) > 2 else "gpt-4"`. -/
def chosen_model (env : Env) : String :=
  match env.args with
  | _ :: m :: _ => m
  | _ => "gpt-4"

/-- Embedding of the final branch of `__main__`: given the value
returned by `count_tokens` (and the stderr lines it produced), print
the count and exit 0 when `token_count >= 0`, else exit 1. -/
def report (token_count : Int) (errs : List String) : RunResult :=
  if 0 ≤ token_count then
    ⟨[toString token_count], errs, 0⟩
  else
    ⟨[], errs, 1⟩

/-- Embedding of the whole `__main__` block of `test_tiktoken.py`. -/
def mainScript (env : Env) : RunResult :=
  match resolve_text env with
  | Except.error e => ⟨[], ["Error reading file: " ++ e], 1⟩
  | Except.ok text =>
    report (count_tokens env.tiktoken text (chosen_model env)).1
           (count_tokens env.tiktoken text (chosen_model env)).2

/-- A node of the modelled filesystem: a regular file (with contents
and a readability flag) or a directory. -/
inductive FsNode
  | file (contents : String) (readable : Bool)
  | dir
deriving DecidableEq

/-- The modelled filesystem: a partial map from paths to nodes. -/
structure Fs where
  lookup : String → Option FsNode

/-- `os.path.isfile`: true exactly on existing regular files; in
particular false on directories and on missing paths. -/
def Fs.isfile (fs : Fs) (p : String) : Bool :=
  match fs.lookup p with
  | some (FsNode.file _ _) => true
  | _ => false

/-- `open(p, 'r', encoding='utf-8').read()`: returns the contents of a
readable regular file and raises (error case) on an unreadable file, a
directory, or a missing path. -/
def Fs.read_file (fs : Fs) (p : String) : Except String String :=
  match fs.lookup p with
  | some (FsNode.file c true) => Except.ok c
  | some (FsNode.file _ false) =>
      Except.error ("[Errno 13] Permission denied: " ++ p)
  | some FsNode.dir => Except.error ("[Errno 21] Is a directory: " ++ p)
  | none => Except.error ("[Errno 2] No such file or directory: " ++ p)

/-- Build a script environment from the modelled filesystem. -/
def Env.ofFs (tk : Tiktoken) (fs : Fs) (args : List String) : Env :=
  ⟨tk, fs.isfile, fs.read_file, args⟩

/-- Embedding of `hello()` from `hello_world.py`: a zero-parameter pure
function whose body is `return "Hello, world!"`. -/
def hello : String := "Hello, world!"

/-! Concrete instances used by the witness and counterexample theorems. -/

/-- A tokenizer whose encoder always succeeds with the given tokens. -/
def constTokenizer (toks : List Nat) : Tiktoken :=
  ⟨fun _ => Except.ok ⟨fun _ => Except.ok toks⟩⟩

/-- A tokenizer whose model lookup always fails with the given message. -/
def failingTokenizer (msg : String) : Tiktoken :=
  ⟨fun _ => Except.error msg⟩

/-- A tokenizer whose lookup succeeds but whose encoder always fails. -/
def failingEncoder (msg : String) : Tiktoken :=
  ⟨fun _ => Except.ok ⟨fun _ => Except.error msg⟩⟩

/-- An environment with an empty filesystem (every path missing). -/
def emptyFs : Fs := ⟨fun _ => none⟩

/-- Claim C8: every call to the greeting operation `hello()`, which
takes no parameters, returns exactly the string "Hello, world!"; in the
embedding it is a pure total constant, so it has no side effects and no
failure mode. -/
theorem hello_returns_greeting : hello = "Hello, world!" := rfl

/-- Claim C2: `count_tokens` catches any failure of the tokenizer
lookup or of the encoding step, writes the diagnostic `Error: {e}` to
the error stream, and returns -1; being a total function of the
embedding, nothing propagates to the caller. -/
theorem count_tokens_catches_failures (tk : Tiktoken) (text model e : String) :
    (tk.encoding_for_model model = Except.error e →
      count_tokens tk text model = (-1, ["Error: " ++ e])) ∧
    (∀ enc : Encoding, tk.encoding_for_model model = Except.ok enc →
      enc.encode text = Except.error e →
      count_tokens tk text model = (-1, ["Error: " ++ e])) := by
  constructor
  · intro h
    simp [count_tokens, h]
  · intro enc h1 h2
    simp [count_tokens, h1, h2]

/-- Witness for C2 at concrete failing tokenizers: a failing model
lookup and a failing encoder each yield -1 and the diagnostic line. -/
theorem count_tokens_catches_failures_witness :
    count_tokens (failingTokenizer "boom") "some text" "gpt-4"
      = (-1, ["Error: " ++ "boom"]) ∧
    count_tokens (failingEncoder "enc boom") "some text" "gpt-4"
      = (-1, ["Error: " ++ "enc boom"]) :=
  ⟨(count_tokens_catches_failures (failingTokenizer "boom")
      "some text" "gpt-4" "boom").1 rfl,
   (count_tokens_catches_failures (failingEncoder "enc boom")
      "some text" "gpt-4" "enc boom").2 ⟨fun _ => Except.error "enc boom"⟩
      rfl rfl⟩

/-- Claim C3: for every text and model, `count_tokens` returns either a
non-negative integer equal to the length of the token sequence produced
by the model-specific encoder for that text, or the sentinel -1; no
other value is ever returned. -/
theorem count_tokens_length_or_sentinel (tk : Tiktoken) (text model : String) :
    (∃ enc : Encoding, ∃ tokens : List Nat,
      tk.encoding_for_model model = Except.ok enc ∧
      enc.encode text = Except.ok tokens ∧
      0 ≤ (count_tokens tk text model).1 ∧
      (count_tokens tk text model).1 = (tokens.length : Int)) ∨
    (count_tokens tk text model).1 = -1 := by
  cases hm : tk.encoding_for_model model with
  | error e => right; simp [count_tokens, hm]
  | ok enc =>
    cases he : enc.encode text with
    | error e => right; simp [count_tokens, hm, he]
    | ok tokens =>
      left
      refine ⟨enc, tokens, ?_, he, ?_, ?_⟩ <;> simp [count_tokens, hm, he]

/-- Claim C1: whenever the text resolution succeeds (so `count_tokens`
is reached), the exit status and standard output are determined by the
count: a successful (non-negative) count is printed to standard output
with exit status 0, and the sentinel -1 yields exit status 1 with
nothing printed to standard output. -/
theorem cli_exit_determined_by_count (env : Env) (text : String)
    (h : resolve_text env = Except.ok text) :
    (0 ≤ (count_tokens env.tiktoken text (chosen_model env)).1 →
      mainScript env =
        ⟨[toString (count_tokens env.tiktoken text (chosen_model env)).1],
         (count_tokens env.tiktoken text (chosen_model env)).2, 0⟩) ∧
    ((count_tokens env.tiktoken text (chosen_model env)).1 = -1 →
      mainScript env =
        ⟨[], (count_tokens env.tiktoken text (chosen_model env)).2, 1⟩) := by
  constructor
  · intro hpos
    simp [mainScript, h, report, hpos]
  · intro hneg
    simp [mainScript, h, report, hneg]

/-- Witness for C1 at a concrete environment: no arguments and a
tokenizer producing two tokens gives stdout "2" and exit 0; no
arguments and a failing tokenizer gives empty stdout and exit 1. -/
theorem cli_exit_determined_by_count_witness :
    mainScript ⟨constTokenizer [10, 11], fun _ => false,
        fun _ => Except.error "never", []⟩ = ⟨["2"], [], 0⟩ ∧
    mainScript ⟨failingTokenizer "boom", fun _ => false,
        fun _ => Except.error "never", []⟩ = ⟨[], ["Error: boom"], 1⟩ :=
  ⟨((cli_exit_determined_by_count
      ⟨constTokenizer [10, 11], fun _ => false, fun _ => Except.error "never", []⟩
      "Hello, World!" rfl).1 (by decide)).trans (by decide),
   ((cli_exit_determined_by_count
      ⟨failingTokenizer "boom", fun _ => false, fun _ => Except.error "never", []⟩
      "Hello, World!" rfl).2 (by decide)).trans (by decide)⟩

/-- Claim C9: the success branch of the script tests `token_count >= 0`
rather than `> 0`: a count of 0 is printed to standard output with exit
status 0 (in particular when the encoder yields an empty token list),
and every negative count — not only -1 — is mapped to exit status 1
with nothing printed to standard output. -/
theorem cli_zero_count_is_success (c : Int) (errs : List String)
    (env : Env) (text : String) (h : resolve_text env = Except.ok text) :
    report 0 errs = ⟨[toString (0 : Int)], errs, 0⟩ ∧
    (c < 0 → report c errs = ⟨[], errs, 1⟩) ∧
    ((count_tokens env.tiktoken text (chosen_model env)).1 = 0 →
      mainScript env = ⟨[toString (0 : Int)],
        (count_tokens env.tiktoken text (chosen_model env)).2, 0⟩) := by
  refine ⟨by simp [report], fun hc => ?_, fun h0 => ?_⟩
  · simp [report, Int.not_le.mpr hc]
  · simp [mainScript, h, report, h0]

/-- Witness for C9: with no arguments and a tokenizer whose encoder
returns the empty token list, the script prints "0" and exits 0; and
`report` at the concrete negative count -5 exits 1 printing nothing. -/
theorem cli_zero_count_is_success_witness :
    mainScript ⟨constTokenizer [], fun _ => false,
        fun _ => Except.error "never", []⟩ = ⟨["0"], [], 0⟩ ∧
    report (-5) [] = ⟨[], [], 1⟩ :=
  ⟨(((cli_zero_count_is_success (-5) []
      ⟨constTokenizer [], fun _ => false, fun _ => Except.error "never", []⟩
      "Hello, World!" rfl).2.2) (by decide)).trans (by decide),
   ((cli_zero_count_is_success (-5) []
      ⟨constTokenizer [], fun _ => false, fun _ => Except.error "never", []⟩
      "Hello, World!" rfl).2.1) (by decide)⟩

/-- Claim C4: with exactly one CLI argument, if the argument satisfies
the file check the effective input text is the file's contents (read as
UTF-8); otherwise the argument string itself is the input text, and no
file read is attempted — the resolution is the same for every possible
`read_file` function. -/
theorem one_arg_text_resolution (env : Env) (a : String)
    (h : env.args = [a]) :
    (∀ contents, env.isfile a = true →
      env.read_file a = Except.ok contents →
      resolve_text env = Except.ok contents) ∧
    (env.isfile a = false →
      resolve_text env = Except.ok a ∧
      ∀ rf : String → Except String String,
        resolve_text ⟨env.tiktoken, env.isfile, rf, env.args⟩ =
          Except.ok a) := by
  constructor
  · intro contents hf hr
    simp [resolve_text, h, hf, hr]
  · intro hf
    refine ⟨?_, fun rf => ?_⟩ <;> simp [resolve_text, h, hf]

/-- Witness for C4 at concrete environments: a readable file argument
resolves to the file's contents, a non-file argument resolves to
itself. -/
theorem one_arg_text_resolution_witness :
    resolve_text ⟨constTokenizer [1], fun p => p = "notes.txt",
        fun p => if p = "notes.txt" then Except.ok "file body"
                 else Except.error "missing", ["notes.txt"]⟩ =
      Except.ok "file body" ∧
    resolve_text ⟨constTokenizer [1], fun _ => false,
        fun _ => Except.error "missing", ["just words"]⟩ =
      Except.ok "just words" :=
  ⟨(one_arg_text_resolution
      ⟨constTokenizer [1], fun p => p = "notes.txt",
        fun p => if p = "notes.txt" then Except.ok "file body"
                 else Except.error "missing", ["notes.txt"]⟩
      "notes.txt" rfl).1 "file body" (by decide) rfl,
   ((one_arg_text_resolution
      ⟨constTokenizer [1], fun _ => false,
        fun _ => Except.error "missing", ["just words"]⟩
      "just words" rfl).2 (by decide)).1⟩

/-- Claim C5: when the first argument passes the file check but the
file read fails, the script prints the diagnostic
`Error reading file: {e}` to the error stream and exits with status 1,
printing nothing to standard output; the tokenizer is never consulted
— the result is the same for every tokenizer. -/
theorem file_read_failure_exits_one (env : Env) (a e : String)
    (rest : List String) (h1 : env.args = a :: rest)
    (h2 : env.isfile a = true)
    (h3 : env.read_file a = Except.error e) :
    mainScript env = ⟨[], ["Error reading file: " ++ e], 1⟩ ∧
    ∀ tk : Tiktoken,
      mainScript ⟨tk, env.isfile, env.read_file, env.args⟩ =
        ⟨[], ["Error reading file: " ++ e], 1⟩ := by
  refine ⟨?_, fun tk => ?_⟩ <;>
    simp [mainScript, resolve_text, h1, h2, h3]

/-- Witness for C5 at a concrete environment: an existing but
unreadable file as the argument gives exit status 1, empty stdout and
the diagnostic on the error stream, for an otherwise working
tokenizer. -/
theorem file_read_failure_exits_one_witness :
    mainScript (Env.ofFs (constTokenizer [1])
        ⟨fun p => if p = "secret.txt" then some (FsNode.file "hidden" false)
                  else none⟩ ["secret.txt"]) =
      ⟨[], ["Error reading file: [Errno 13] Permission denied: secret.txt"], 1⟩ :=
  ((file_read_failure_exits_one
      (Env.ofFs (constTokenizer [1])
        ⟨fun p => if p = "secret.txt" then some (FsNode.file "hidden" false)
                  else none⟩ ["secret.txt"])
      "secret.txt" ("[Errno 13] Permission denied: " ++ "secret.txt") []
      rfl (by decide) rfl).1).trans (by decide)

/-- Claim C7: with no CLI arguments the script calls `count_tokens`
with the text "Hello, World!" and the model "gpt-4"; a second argument
replaces the model while leaving the text resolution as it is with the
first argument alone. -/
theorem default_text_and_model_override (env : Env) :
    (env.args = [] →
      mainScript env =
        report (count_tokens env.tiktoken "Hello, World!" "gpt-4").1
               (count_tokens env.tiktoken "Hello, World!" "gpt-4").2) ∧
    (∀ (a m : String) (rest : List String), env.args = a :: m :: rest →
      chosen_model env = m ∧
      resolve_text env =
        resolve_text ⟨env.tiktoken, env.isfile, env.read_file, [a]⟩) := by
  constructor
  · intro h
    simp [mainScript, resolve_text, chosen_model, h]
  · intro a m rest h
    refine ⟨?_, ?_⟩ <;> simp [resolve_text, chosen_model, h]

/-- Witness for C7 at concrete environments: with no arguments and a
one-token encoder the script prints "1" and exits 0 (the count of
"Hello, World!" under "gpt-4" in this model); with two arguments the
second is the model. -/
theorem default_text_and_model_override_witness :
    mainScript ⟨constTokenizer [5], fun _ => false,
        fun _ => Except.error "never", []⟩ = ⟨["1"], [], 0⟩ ∧
    chosen_model ⟨constTokenizer [5], fun _ => true,
        fun _ => Except.ok "c", ["some text", "gpt-3.5-turbo"]⟩ =
      "gpt-3.5-turbo" :=
  ⟨((default_text_and_model_override
      ⟨constTokenizer [5], fun _ => false,
        fun _ => Except.error "never", []⟩).1 rfl).trans (by decide),
   ((default_text_and_model_override
      ⟨constTokenizer [5], fun _ => true,
        fun _ => Except.ok "c", ["some text", "gpt-3.5-turbo"]⟩).2
      "some text" "gpt-3.5-turbo" [] rfl).1⟩

/-- Claim C10: the script inspects only the first two CLI arguments:
with two or more arguments, any further arguments are ignored and the
run is exactly the run on the first two alone. -/
theorem extra_args_ignored (env : Env) (a m : String) (rest : List String)
    (h : env.args = a :: m :: rest) :
    mainScript env =
      mainScript ⟨env.tiktoken, env.isfile, env.read_file, [a, m]⟩ := by
  simp [mainScript, resolve_text, chosen_model, h]

/-- Witness for C10 at a concrete environment: a run with four
arguments equals the run with the first two, and both print "1" with
exit status 0. -/
theorem extra_args_ignored_witness :
    mainScript ⟨constTokenizer [9], fun _ => false,
        fun _ => Except.error "never", ["t", "m", "x", "y"]⟩ =
      mainScript ⟨constTokenizer [9], fun _ => false,
        fun _ => Except.error "never", ["t", "m"]⟩ ∧
    mainScript ⟨constTokenizer [9], fun _ => false,
        fun _ => Except.error "never", ["t", "m", "x", "y"]⟩ =
      ⟨["1"], [], 0⟩ :=
  ⟨extra_args_ignored
      ⟨constTokenizer [9], fun _ => false,
        fun _ => Except.error "never", ["t", "m", "x", "y"]⟩
      "t" "m" ["x", "y"] rfl,
   by decide⟩

/-- Counterexample to C6 as stated: with a directory at path "mydir"
as the sole argument, `os.path.isfile` is false on a directory, so the
script treats "mydir" as literal text, tokenizes it, prints the count
and exits with status 0 — it does not exit 1 nor keep standard output
empty. -/
theorem directory_arg_counterexample :
    Fs.isfile ⟨fun p => if p = "mydir" then some FsNode.dir else none⟩
      "mydir" = false ∧
    mainScript (Env.ofFs (constTokenizer [3])
      ⟨fun p => if p = "mydir" then some FsNode.dir else none⟩
      ["mydir"]) = ⟨["1"], [], 0⟩ ∧
    (mainScript (Env.ofFs (constTokenizer [3])
      ⟨fun p => if p = "mydir" then some FsNode.dir else none⟩
      ["mydir"])).exitCode ≠ 1 ∧
    (mainScript (Env.ofFs (constTokenizer [3])
      ⟨fun p => if p = "mydir" then some FsNode.dir else none⟩
      ["mydir"])).stdout ≠ [] := by
  refine ⟨by decide, by decide, by decide, by decide⟩

/-- Claim C6 amended: when the script is invoked with an argument that
is an existing regular file whose read fails (for example an unreadable
file), it exits with status 1 and prints nothing to standard output; a
directory argument does not satisfy the `os.path.isfile` check and is
instead treated as literal input text. -/
theorem unreadable_file_exits_one (tk : Tiktoken) (fs : Fs)
    (p c : String) (rest : List String)
    (h : fs.lookup p = some (FsNode.file c false)) :
    (mainScript (Env.ofFs tk fs (p :: rest))).exitCode = 1 ∧
    (mainScript (Env.ofFs tk fs (p :: rest))).stdout = [] := by
  refine ⟨?_, ?_⟩ <;>
    simp [mainScript, resolve_text, Env.ofFs, Fs.isfile, Fs.read_file, h]

/-- Witness for the amended C6 at a concrete environment: an
unreadable regular file at path "locked.log" as the argument yields
exit status 1 and empty standard output. -/
theorem unreadable_file_exits_one_witness :
    (mainScript (Env.ofFs (constTokenizer [2])
      ⟨fun p => if p = "locked.log" then some (FsNode.file "data" false)
                else none⟩ ["locked.log"])).exitCode = 1 ∧
    (mainScript (Env.ofFs (constTokenizer [2])
      ⟨fun p => if p = "locked.log" then some (FsNode.file "data" false)
                else none⟩ ["locked.log"])).stdout = [] :=
  unreadable_file_exits_one (constTokenizer [2])
    ⟨fun p => if p = "locked.log" then some (FsNode.file "data" false)
              else none⟩ "locked.log" "data" [] rfl

end PwshRepl
